import Mathlib

/-!
Shallow embedding of `src/ephemeris/sleep.py` (the `galaxy_wait` polling
loop, its URL construction, and `main`'s exit-code translation).

The loop in the source is

  count = 0
  while sleep_condition.sleep:
      try:
          result = requests.get(version_url)
          if result.status_code == 403:
              if verbose: print key-not-valid line
          else:
              try:
                  result = result.json()
                  if verbose: print "Galaxy Version: %s" % result['version_major']
                  break
              except ValueError:
                  if verbose: print no-valid-json line
      except requests.exceptions.ConnectionError as e:
          if verbose: print not-up line
      count += 1
      if timeout != 0 and count > timeout:
          stderr "Failed to contact Galaxy"; return False
      time.sleep(DEFAULT_SLEEP_WAIT)
  return True

The environment (the network plus the external owner of the shared
`SleepCondition`) is modelled as a trace: one entry per loop iteration,
holding the value of `sleep_condition.sleep` read at the `while` check and
the outcome the `requests.get` call would have on that iteration.  A run
consumes the trace in order; an exhausted trace means the loop is still
polling (no result yet).  Observable effects (requests issued, sleeps,
stdout and stderr lines) are recorded alongside the result.

`result.json()` raising `ValueError` (body not JSON) is `jsonBody = none`.
A parsed JSON value is kept only as far as the code inspects it:
`result['version_major']` succeeds on a dict containing the key, raises
`KeyError` on a dict without it, and raises `TypeError` on any non-dict
JSON value — none of these are caught by `except ValueError`, so they
escape `galaxy_wait`.  Network-layer exceptions other than
`requests.exceptions.ConnectionError` (e.g. `ReadTimeout`) are not caught
either; they are `ReqOutcome.netOther`.
-/

/-- A parsed JSON document, kept only as far as `galaxy_wait` inspects it:
a JSON object is its string-rendered fields (the code reads
`result['version_major']` and formats it with `%s`); any non-object JSON
value (list, string, number, null, bool) is `nonObj`, on which Python's
`['version_major']` subscript raises `TypeError`. -/
inductive PyJson where
  | obj (fields : List (String × String))
  | nonObj
deriving DecidableEq, Repr

/-- The outcome of one `requests.get(version_url)` call. -/
inductive ReqOutcome where
  /-- `requests.exceptions.ConnectionError` with message `msg` — caught. -/
  | connError (msg : String)
  /-- any other exception from the network layer (e.g. `ReadTimeout`) — not
  caught by `except requests.exceptions.ConnectionError`. -/
  | netOther
  /-- an HTTP response with this status code; `jsonBody = none` when
  `result.json()` raises `ValueError`. -/
  | ok (status_code : Nat) (jsonBody : Option PyJson)
deriving DecidableEq, Repr

/-- An exception escaping `galaxy_wait`. -/
inductive ExnKind where
  | keyError
  | typeError
  | netException
deriving DecidableEq, Repr

/-- How a (partial) run of `galaxy_wait` ends. -/
inductive WaitOutcome where
  /-- the function returned `b`. -/
  | ret (b : Bool)
  /-- an exception escaped the function. -/
  | exn (e : ExnKind)
  /-- the supplied trace is exhausted and the loop would keep polling. -/
  | pending
deriving DecidableEq, Repr

/-- The result of a run together with its observable effects. -/
structure RunResult where
  outcome : WaitOutcome
  /-- the value of `count` when the run ended. -/
  finalCount : Nat
  /-- number of `requests.get` calls issued. -/
  attempts : Nat
  /-- number of `time.sleep(DEFAULT_SLEEP_WAIT)` calls. -/
  sleeps : Nat
  stdout : List String
  stderr : List String
deriving DecidableEq, Repr

/-- `"%02d" % n`. -/
def pad2 (n : Nat) : String :=
  if n < 10 then "0" ++ toString n else toString n

/-- `result.__str__()` of a `requests` response. -/
def response_str (status : Nat) : String :=
  "<Response [" ++ toString status ++ "]>"

/-- `"[%02d] Galaxy not up yet... %s\n" % (count, unicodify(e)[:100])`. -/
def galaxy_not_up_line (count : Nat) (msg : String) : String :=
  "[" ++ pad2 count ++ "] Galaxy not up yet... " ++ msg.take 100 ++ "\n"

/-- `"[%02d] Provided key not (yet) valid... %s\n" % (count, result.__str__())`. -/
def key_not_valid_line (count status : Nat) : String :=
  "[" ++ pad2 count ++ "] Provided key not (yet) valid... " ++ response_str status ++ "\n"

/-- `"[%02d] No valid json returned... %s\n" % (count, result.__str__())`. -/
def no_valid_json_line (count status : Nat) : String :=
  "[" ++ pad2 count ++ "] No valid json returned... " ++ response_str status ++ "\n"

/-- What one execution of the body of the `try:` block does (given the
outcome of its `requests.get`): succeed (`break`, returning `True`),
fall through to the retry logic, or raise.  Carries the stdout lines the
body wrote. -/
inductive BodyStep where
  | success (out : List String)
  | retry (out : List String)
  | raised (e : ExnKind) (out : List String)
deriving DecidableEq, Repr

/-- The body of the `while` loop above the `count += 1` line, translated
branch for branch from the source. -/
def loop_body (verbose : Bool) (count : Nat) : ReqOutcome → BodyStep
  | .netOther => .raised .netException []
  | .connError msg =>
      .retry (if verbose then [galaxy_not_up_line count msg] else [])
  | .ok status_code jsonBody =>
      if status_code = 403 then
        .retry (if verbose then [key_not_valid_line count status_code] else [])
      else
        match jsonBody with
        | none =>
            .retry (if verbose then [no_valid_json_line count status_code] else [])
        | some j =>
            if verbose then
              match j with
              | .obj fields =>
                  match List.lookup "version_major" fields with
                  | some v => .success ["Galaxy Version: " ++ v ++ "\n"]
                  | none => .raised .keyError []
              | .nonObj => .raised .typeError []
            else .success []

/-- The `while sleep_condition.sleep:` loop of `galaxy_wait`, run from a
given value of `count` against a trace of iterations.  Each trace entry is
(the value of `sleep_condition.sleep` read at the loop check, the outcome
`requests.get` would have on that iteration). -/
def galaxy_wait_loop (verbose : Bool) (timeout : Nat) :
    Nat → List (Bool × ReqOutcome) → RunResult
  | count, [] =>
      { outcome := .pending, finalCount := count, attempts := 0, sleeps := 0,
        stdout := [], stderr := [] }
  | count, (sleep, oc) :: rest =>
      if sleep then
        match loop_body verbose count oc with
        | .success out =>
            { outcome := .ret true, finalCount := count, attempts := 1,
              sleeps := 0, stdout := out, stderr := [] }
        | .raised e out =>
            { outcome := .exn e, finalCount := count, attempts := 1,
              sleeps := 0, stdout := out, stderr := [] }
        | .retry out =>
            if timeout ≠ 0 ∧ count + 1 > timeout then
              { outcome := .ret false, finalCount := count + 1, attempts := 1,
                sleeps := 0, stdout := out,
                stderr := ["Failed to contact Galaxy\n"] }
            else
              let r := galaxy_wait_loop verbose timeout (count + 1) rest
              { outcome := r.outcome, finalCount := r.finalCount,
                attempts := r.attempts + 1, sleeps := r.sleeps + 1,
                stdout := out ++ r.stdout, stderr := r.stderr }
      else
        { outcome := .ret true, finalCount := count, attempts := 0,
          sleeps := 0, stdout := [], stderr := [] }

/-- `galaxy_wait`'s loop from its initial state (`count = 0`). -/
def galaxy_wait (verbose : Bool) (timeout : Nat)
    (trace : List (Bool × ReqOutcome)) : RunResult :=
  galaxy_wait_loop verbose timeout 0 trace

/-- The `version_url` computed at the head of `galaxy_wait`:
`galaxy_url + "/api/version"`, then `"%s?%s" % (version_url, api_key)` when
`api_key` is truthy (Python's `if api_key:` is false for `None` and for the
empty string). -/
def version_url (galaxy_url : String) (api_key : Option String) : String :=
  let vurl := galaxy_url ++ "/api/version"
  match api_key with
  | none => vurl
  | some k => if k = "" then vurl else vurl ++ "?" ++ k

/-- `exit_code = 0 if galaxy_alive else 1` in `main`. -/
def main_exit_code (galaxy_alive : Bool) : Nat :=
  if galaxy_alive then 0 else 1

/-- `main` run against a trace: when `galaxy_wait` returns a boolean, the
process exits with `main_exit_code` of it; when it raises or the trace is
exhausted, `sys.exit` is not reached (no exit code from `main`'s own code). -/
def main_run (verbose : Bool) (timeout : Nat)
    (trace : List (Bool × ReqOutcome)) : Option Nat :=
  match (galaxy_wait verbose timeout trace).outcome with
  | .ret b => some (main_exit_code b)
  | _ => none

/-- A request outcome that takes the retry path: a caught
`ConnectionError`, a 403 response, or a response whose body is not JSON. -/
def isRetryOutcome : ReqOutcome → Bool
  | .connError _ => true
  | .netOther => false
  | .ok status_code jsonBody => status_code == 403 || jsonBody.isNone

example :
    galaxy_wait false 2
      [(true, .connError "refused"), (true, .ok 403 none), (true, .ok 500 none)]
      = { outcome := .ret false, finalCount := 3, attempts := 3, sleeps := 2,
          stdout := [], stderr := ["Failed to contact Galaxy\n"] } := by decide

example :
    galaxy_wait true 0 [(true, .ok 200 (some (.obj [("version_major", "23.0")])))]
      = { outcome := .ret true, finalCount := 0, attempts := 1, sleeps := 0,
          stdout := ["Galaxy Version: 23.0\n"], stderr := [] } := by decide

example :
    galaxy_wait true 0 [(true, .ok 200 (some (.obj [])))]
      = { outcome := .exn .keyError, finalCount := 0, attempts := 1, sleeps := 0,
          stdout := [], stderr := [] } := by decide

/-! ## Helper lemmas -/

theorem loop_body_retry_exists (v : Bool) (c : Nat) (oc : ReqOutcome)
    (h : isRetryOutcome oc = true) : ∃ out, loop_body v c oc = .retry out := by
  cases oc with
  | connError msg => exact ⟨_, rfl⟩
  | netOther => simp [isRetryOutcome] at h
  | ok status_code jsonBody =>
  by_cases h403 : status_code = 403
  · refine ⟨if v then [key_not_valid_line c status_code] else [], ?_⟩
    simp [loop_body, h403]
  · have hnone : jsonBody = none := by simpa [isRetryOutcome, h403] using h
    refine ⟨if v then [no_valid_json_line c status_code] else [], ?_⟩
    simp [loop_body, h403, hnone]

theorem gw_nonverbose_quiet (t : Nat) (trace : List (Bool × ReqOutcome)) :
    ∀ c : Nat, (galaxy_wait_loop false t c trace).stdout = [] ∧
      ∀ e, (galaxy_wait_loop false t c trace).outcome = .exn e → e = .netException := by
  induction trace with
  | nil => intro c; simp [galaxy_wait_loop]
  | cons p rest ih =>
    intro c
    obtain ⟨sleep, oc⟩ := p
    cases sleep with
    | false => simp [galaxy_wait_loop]
    | true =>
      cases oc with
      | connError msg =>
        simp only [galaxy_wait_loop, loop_body, if_true, Bool.false_eq_true, if_false]
        split
        · simp
        · simpa using ih (c + 1)
      | netOther =>
        simp [galaxy_wait_loop, loop_body]
      | ok status_code jsonBody =>
        by_cases h403 : status_code = 403
        · simp only [galaxy_wait_loop, loop_body, h403, if_true, Bool.false_eq_true,
            if_false, if_pos rfl]
          split
          · simp
          · simpa using ih (c + 1)
        · cases jsonBody with
          | none =>
            simp only [galaxy_wait_loop, loop_body, if_neg h403, if_true,
              Bool.false_eq_true, if_false]
            split
            · simp
            · simpa using ih (c + 1)
          | some j =>
            simp [galaxy_wait_loop, loop_body, h403]

theorem gw_no_netother (v : Bool) (t : Nat) (trace : List (Bool × ReqOutcome)) :
    ∀ c : Nat, (∀ p ∈ trace, p.2 ≠ ReqOutcome.netOther) →
      (galaxy_wait_loop v t c trace).outcome ≠ .exn .netException := by
  induction trace with
  | nil => intro c _; simp [galaxy_wait_loop]
  | cons p rest ih =>
    intro c hnet
    obtain ⟨sleep, oc⟩ := p
    have hoc : oc ≠ ReqOutcome.netOther := hnet (sleep, oc) (List.mem_cons_self _ _)
    have hrest : ∀ p ∈ rest, p.2 ≠ ReqOutcome.netOther :=
      fun q hq => hnet q (List.mem_cons_of_mem _ hq)
    cases sleep with
    | false => simp [galaxy_wait_loop]
    | true =>
      cases oc with
      | connError msg =>
        simp only [galaxy_wait_loop, loop_body, if_true, Bool.false_eq_true, if_false]
        split
        · simp
        · simpa using ih (c + 1) hrest
      | netOther => exact absurd rfl hoc
      | ok status_code jsonBody =>
        by_cases h403 : status_code = 403
        · simp only [galaxy_wait_loop, loop_body, h403, if_true, Bool.false_eq_true,
            if_false, if_pos rfl]
          split
          · simp
          · simpa using ih (c + 1) hrest
        · cases jsonBody with
          | none =>
            simp only [galaxy_wait_loop, loop_body, if_neg h403, if_true,
              Bool.false_eq_true, if_false]
            split
            · simp
            · simpa using ih (c + 1) hrest
          | some j =>
            cases v with
            | false => simp [galaxy_wait_loop, loop_body, h403]
            | true =>
              cases j with
              | obj fields =>
                rcases hl : List.lookup "version_major" fields with _ | ver <;>
                  simp [galaxy_wait_loop, loop_body, h403, hl]
              | nonObj => simp [galaxy_wait_loop, loop_body, h403]

/-- One loop step when the `while` check reads a cancelled flag. -/
theorem gw_step_cancel (v : Bool) (t c : Nat) (oc : ReqOutcome)
    (rest : List (Bool × ReqOutcome)) :
    galaxy_wait_loop v t c ((false, oc) :: rest)
      = { outcome := .ret true, finalCount := c, attempts := 0, sleeps := 0,
          stdout := [], stderr := [] } := rfl

/-- One loop step whose body hits `break`. -/
theorem gw_step_success (v : Bool) (t c : Nat) (oc : ReqOutcome)
    (out : List String) (rest : List (Bool × ReqOutcome))
    (hout : loop_body v c oc = .success out) :
    galaxy_wait_loop v t c ((true, oc) :: rest)
      = { outcome := .ret true, finalCount := c, attempts := 1, sleeps := 0,
          stdout := out, stderr := [] } := by
  simp [galaxy_wait_loop, hout]

/-- One loop step whose body raises. -/
theorem gw_step_raised (v : Bool) (t c : Nat) (oc : ReqOutcome) (e : ExnKind)
    (out : List String) (rest : List (Bool × ReqOutcome))
    (hout : loop_body v c oc = .raised e out) :
    galaxy_wait_loop v t c ((true, oc) :: rest)
      = { outcome := .exn e, finalCount := c, attempts := 1, sleeps := 0,
          stdout := out, stderr := [] } := by
  simp [galaxy_wait_loop, hout]

/-- One loop step that retries and trips `timeout != 0 and count > timeout`. -/
theorem gw_step_retry_timeout (v : Bool) (t c : Nat) (oc : ReqOutcome)
    (out : List String) (rest : List (Bool × ReqOutcome))
    (hout : loop_body v c oc = .retry out) (h : t ≠ 0 ∧ c + 1 > t) :
    galaxy_wait_loop v t c ((true, oc) :: rest)
      = { outcome := .ret false, finalCount := c + 1, attempts := 1, sleeps := 0,
          stdout := out, stderr := ["Failed to contact Galaxy\n"] } := by
  simp only [galaxy_wait_loop, hout, if_true]
  rw [if_pos h]

/-- One loop step that retries, sleeps and goes round again. -/
theorem gw_step_retry (v : Bool) (t c : Nat) (oc : ReqOutcome)
    (out : List String) (rest : List (Bool × ReqOutcome))
    (hout : loop_body v c oc = .retry out) (h : ¬(t ≠ 0 ∧ c + 1 > t)) :
    galaxy_wait_loop v t c ((true, oc) :: rest)
      = { outcome := (galaxy_wait_loop v t (c + 1) rest).outcome,
          finalCount := (galaxy_wait_loop v t (c + 1) rest).finalCount,
          attempts := (galaxy_wait_loop v t (c + 1) rest).attempts + 1,
          sleeps := (galaxy_wait_loop v t (c + 1) rest).sleeps + 1,
          stdout := out ++ (galaxy_wait_loop v t (c + 1) rest).stdout,
          stderr := (galaxy_wait_loop v t (c + 1) rest).stderr } := by
  simp only [galaxy_wait_loop, hout, if_true]
  rw [if_neg h]

theorem gw_all_retry_times_out (v : Bool) (t : Nat) (ht : t ≠ 0) :
    ∀ (pre : List (Bool × ReqOutcome)) (c : Nat) (rest : List (Bool × ReqOutcome)),
      pre ≠ [] → c + pre.length = t + 1 →
      (∀ p ∈ pre, p.1 = true ∧ isRetryOutcome p.2 = true) →
      (galaxy_wait_loop v t c (pre ++ rest)).outcome = .ret false ∧
      (galaxy_wait_loop v t c (pre ++ rest)).attempts = pre.length ∧
      (galaxy_wait_loop v t c (pre ++ rest)).sleeps = pre.length - 1 ∧
      (galaxy_wait_loop v t c (pre ++ rest)).finalCount = t + 1 := by
  intro pre
  induction pre with
  | nil => intro c rest hne _ _; exact absurd rfl hne
  | cons p pre' ih =>
    intro c rest _ hlen hall
    obtain ⟨sleep, oc⟩ := p
    obtain ⟨hflag, hretry⟩ := hall (sleep, oc) (List.mem_cons_self _ _)
    simp only at hflag
    subst hflag
    obtain ⟨out, hout⟩ := loop_body_retry_exists v c oc hretry
    cases pre' with
    | nil =>
      have hc : c = t := by simpa using hlen
      rw [List.cons_append, List.nil_append,
        gw_step_retry_timeout v t c oc out rest hout ⟨ht, by omega⟩]
      simp [hc]
    | cons q pre'' =>
      have hc1 : c + 1 ≤ t := by
        simp only [List.length_cons] at hlen; omega
      have hnt : ¬(t ≠ 0 ∧ c + 1 > t) := by rintro ⟨-, h2⟩; omega
      rw [List.cons_append, gw_step_retry v t c oc out ((q :: pre'') ++ rest) hout hnt]
      have hrec := ih (c + 1) rest (by simp)
        (by simp only [List.length_cons] at hlen ⊢; omega)
        (fun p' hp' => hall p' (List.mem_cons_of_mem _ hp'))
      obtain ⟨h1, h2, h3, h4⟩ := hrec
      refine ⟨by simpa using h1, ?_, ?_, by simpa using h4⟩
      · simp only [List.length_cons] at h2 ⊢
        simp only [h2]
      · simp only [List.length_cons] at h3 ⊢
        simp only [h3]
        omega

theorem gw_conn_then_success (msg : String) (status : Nat) (j : PyJson)
    (hs : status ≠ 403) (rest : List (Bool × ReqOutcome)) :
    ∀ (k c : Nat),
      galaxy_wait_loop false 0 c
        (List.replicate k (true, ReqOutcome.connError msg) ++
          (true, ReqOutcome.ok status (some j)) :: rest)
        = { outcome := .ret true, finalCount := c + k, attempts := k + 1,
            sleeps := k, stdout := [], stderr := [] } := by
  intro k
  induction k with
  | zero =>
    intro c
    rw [List.replicate_zero, List.nil_append,
      gw_step_success false 0 c (ReqOutcome.ok status (some j)) [] rest
        (by simp [loop_body, hs])]
    simp
  | succ k ih =>
    intro c
    rw [List.replicate_succ, List.cons_append,
      gw_step_retry false 0 c (ReqOutcome.connError msg) [] _
        (by simp [loop_body]) (by simp), ih (c + 1)]
    simp [RunResult.mk.injEq]
    omega

theorem gw_timeout_zero_never_false (v : Bool) (trace : List (Bool × ReqOutcome)) :
    ∀ c : Nat, (galaxy_wait_loop v 0 c trace).outcome ≠ .ret false := by
  induction trace with
  | nil => intro c; simp [galaxy_wait_loop]
  | cons p rest ih =>
    intro c
    obtain ⟨sleep, oc⟩ := p
    cases sleep with
    | false => rw [gw_step_cancel]; simp
    | true =>
      rcases hout : loop_body v c oc with out | out | ⟨e, out⟩
      · rw [gw_step_success v 0 c oc out rest hout]; simp
      · rw [gw_step_retry v 0 c oc out rest hout (by simp)]
        simpa using ih (c + 1)
      · rw [gw_step_raised v 0 c oc e out rest hout]; simp

theorem gw_timeout_zero_all_retry (v : Bool) (trace : List (Bool × ReqOutcome)) :
    ∀ c : Nat, (∀ p ∈ trace, isRetryOutcome p.2 = true) →
      (galaxy_wait_loop v 0 c trace).outcome = .pending ∨
      (galaxy_wait_loop v 0 c trace).outcome = .ret true := by
  induction trace with
  | nil => intro c _; simp [galaxy_wait_loop]
  | cons p rest ih =>
    intro c hall
    obtain ⟨sleep, oc⟩ := p
    cases sleep with
    | false => rw [gw_step_cancel]; simp
    | true =>
      obtain ⟨out, hout⟩ :=
        loop_body_retry_exists v c oc (hall (true, oc) (List.mem_cons_self _ _))
      rw [gw_step_retry v 0 c oc out rest hout (by simp)]
      simpa using ih (c + 1) (fun q hq => hall q (List.mem_cons_of_mem _ hq))

/-- The status/body tests of `loop_body` that the similarity argument needs:
a 403 response. -/
def is403 : ReqOutcome → Bool
  | .ok status_code _ => status_code == 403
  | _ => false

/-- A caught connection failure. -/
def isConnFailure : ReqOutcome → Bool
  | .connError _ => true
  | _ => false

/-- Two request outcomes that differ at most by swapping an HTTP 403
response for a connection failure (in either direction). -/
def similar403Conn (a b : ReqOutcome) : Bool :=
  a == b || (is403 a && isConnFailure b) || (isConnFailure a && is403 b)

theorem retry_of_is403 (v : Bool) (c : Nat) (oc : ReqOutcome)
    (h : is403 oc = true) : ∃ out, loop_body v c oc = .retry out := by
  apply loop_body_retry_exists
  cases oc with
  | connError msg => rfl
  | netOther => simp [is403] at h
  | ok status_code jsonBody => simp_all [is403, isRetryOutcome]

theorem retry_of_isConnFailure (v : Bool) (c : Nat) (oc : ReqOutcome)
    (h : isConnFailure oc = true) : ∃ out, loop_body v c oc = .retry out := by
  apply loop_body_retry_exists
  cases oc <;> simp_all [isConnFailure, isRetryOutcome]

theorem gw_similar_runs (v : Bool) (t : Nat)
    (t1 t2 : List (Bool × ReqOutcome))
    (h : List.Forall₂ (fun p q => p.1 = q.1 ∧ similar403Conn p.2 q.2 = true) t1 t2) :
    ∀ c : Nat,
      (galaxy_wait_loop v t c t1).outcome = (galaxy_wait_loop v t c t2).outcome ∧
      (galaxy_wait_loop v t c t1).attempts = (galaxy_wait_loop v t c t2).attempts ∧
      (galaxy_wait_loop v t c t1).sleeps = (galaxy_wait_loop v t c t2).sleeps ∧
      (galaxy_wait_loop v t c t1).finalCount = (galaxy_wait_loop v t c t2).finalCount := by
  induction h with
  | nil => intro c; simp
  | cons hpq hrest ih =>
    intro c
    rename_i p q t1' t2'
    obtain ⟨sleep, a⟩ := p
    obtain ⟨sleep2, b⟩ := q
    obtain ⟨hflag, hsim⟩ := hpq
    simp only at hflag
    subst hflag
    cases sleep with
    | false => rw [gw_step_cancel, gw_step_cancel]; simp
    | true =>
      have hcases : a = b ∨
          ((∃ o1, loop_body v c a = .retry o1) ∧ ∃ o2, loop_body v c b = .retry o2) := by
        simp only [similar403Conn, Bool.or_eq_true, Bool.and_eq_true, beq_iff_eq] at hsim
        rcases hsim with (hab | ⟨h1, h2⟩) | ⟨h1, h2⟩
        · exact Or.inl hab
        · exact Or.inr ⟨retry_of_is403 v c a h1, retry_of_isConnFailure v c b h2⟩
        · exact Or.inr ⟨retry_of_isConnFailure v c a h1, retry_of_is403 v c b h2⟩
      rcases hcases with hab | ⟨⟨o1, ho1⟩, ⟨o2, ho2⟩⟩
      · subst hab
        rcases hout : loop_body v c a with out | out | ⟨e, out⟩
        · rw [gw_step_success v t c a out t1' hout, gw_step_success v t c a out t2' hout]
          simp
        · by_cases htc : t ≠ 0 ∧ c + 1 > t
          · rw [gw_step_retry_timeout v t c a out t1' hout htc,
              gw_step_retry_timeout v t c a out t2' hout htc]
            simp
          · rw [gw_step_retry v t c a out t1' hout htc,
              gw_step_retry v t c a out t2' hout htc]
            obtain ⟨h1, h2, h3, h4⟩ := ih (c + 1)
            exact ⟨by simpa using h1, by simpa using h2, by simpa using h3,
              by simpa using h4⟩
        · rw [gw_step_raised v t c a e out t1' hout, gw_step_raised v t c a e out t2' hout]
          simp
      · by_cases htc : t ≠ 0 ∧ c + 1 > t
        · rw [gw_step_retry_timeout v t c a o1 t1' ho1 htc,
            gw_step_retry_timeout v t c b o2 t2' ho2 htc]
          simp
        · rw [gw_step_retry v t c a o1 t1' ho1 htc, gw_step_retry v t c b o2 t2' ho2 htc]
          obtain ⟨h1, h2, h3, h4⟩ := ih (c + 1)
          exact ⟨by simpa using h1, by simpa using h2, by simpa using h3,
            by simpa using h4⟩

/-! ## The claims -/

/-- Claim C1: with `timeoutSeconds = N > 0` and a target that never yields a
successful (JSON-parseable, non-403) response, `galaxy_wait` returns `false`
after exactly `N + 1` attempts: attempts `1..N` are retried (each followed by
a sleep), and on attempt `N + 1` the `count > timeout` check first holds and
the function returns `false` immediately, before any further sleep (`N`
sleeps in total). -/
theorem C1_timeout_after_n_plus_one_attempts (N : Nat) (hN : 0 < N) (v : Bool)
    (pre rest : List (Bool × ReqOutcome)) (hlen : pre.length = N + 1)
    (hfail : ∀ p ∈ pre, p.1 = true ∧ isRetryOutcome p.2 = true) :
    (galaxy_wait v N (pre ++ rest)).outcome = .ret false ∧
    (galaxy_wait v N (pre ++ rest)).attempts = N + 1 ∧
    (galaxy_wait v N (pre ++ rest)).sleeps = N := by
  have hne : pre ≠ [] := by
    intro h
    rw [h] at hlen
    simp at hlen
  have h := gw_all_retry_times_out v N (by omega) pre 0 rest hne (by omega) hfail
  simp only [galaxy_wait]
  refine ⟨h.1, ?_, ?_⟩
  · rw [h.2.1, hlen]
  · rw [h.2.2.1, hlen]
    omega

/-- Concrete instance of the C1 theorem: `N = 1`, one connection failure then
one 403 response. -/
theorem C1_witness :
    (galaxy_wait false 1 ([(true, ReqOutcome.connError "refused"),
        (true, ReqOutcome.ok 403 none)] ++ [])).outcome = .ret false ∧
    (galaxy_wait false 1 ([(true, ReqOutcome.connError "refused"),
        (true, ReqOutcome.ok 403 none)] ++ [])).attempts = 1 + 1 ∧
    (galaxy_wait false 1 ([(true, ReqOutcome.connError "refused"),
        (true, ReqOutcome.ok 403 none)] ++ [])).sleeps = 1 :=
  C1_timeout_after_n_plus_one_attempts 1 (by decide) false _ [] (by decide) (by decide)

/-- Claim C2 counterexample: exceptions do escape `galaxy_wait`.  With
`verbose = true`, a JSON-parseable 200 response whose object lacks
`version_major` raises `KeyError` out of the function; and a network-layer
failure that is not a `requests.exceptions.ConnectionError` (e.g. a read
timeout) propagates instead of being absorbed into the retry branch. -/
theorem C2_counterexample :
    (galaxy_wait true 0 [(true, ReqOutcome.ok 200 (some (PyJson.obj [])))]).outcome
        = .exn .keyError ∧
    (galaxy_wait false 0 [(true, ReqOutcome.netOther)]).outcome = .exn .netException := by
  decide

/-- Claim C2 (amended): provided `verbose` is false and every network-layer
failure in the trace is a `requests.exceptions.ConnectionError`, no exception
escapes `galaxy_wait`: each run returns `true`, returns `false`, or keeps
polling. -/
theorem C2_no_exception_escapes (t : Nat) (trace : List (Bool × ReqOutcome))
    (hnet : ∀ p ∈ trace, p.2 ≠ ReqOutcome.netOther) (e : ExnKind) :
    (galaxy_wait false t trace).outcome ≠ .exn e := by
  intro hexn
  simp only [galaxy_wait] at hexn
  have he := (gw_nonverbose_quiet t trace 0).2 e hexn
  subst he
  exact gw_no_netother false t trace 0 hnet hexn

/-- Concrete instance of the amended C2 theorem: a run over every caught
failure kind raises nothing. -/
theorem C2_witness :
    (galaxy_wait false 5 [(true, ReqOutcome.connError "refused"),
      (true, ReqOutcome.ok 403 (some (PyJson.obj []))),
      (true, ReqOutcome.ok 200 none),
      (true, ReqOutcome.ok 200 (some PyJson.nonObj))]).outcome ≠ .exn .keyError :=
  C2_no_exception_escapes 5 _ (by decide) .keyError

/-- Claim C3 counterexample: a response whose body parses as valid JSON with a
status other than 403 need not make `galaxy_wait` return `true`: with
`verbose = true`, a 200 response whose JSON body is not an object (a JSON
array, say) raises `TypeError` at `result['version_major']` instead. -/
theorem C3_counterexample :
    (galaxy_wait true 0 [(true, ReqOutcome.ok 200 (some PyJson.nonObj))]).outcome
      = .exn .typeError := by
  decide

/-- Claim C3 (amended): whenever the loop reaches a response whose body parses
as valid JSON with a status code other than 403 — and `verbose` is false, or
the JSON is an object carrying `version_major` — `galaxy_wait` returns `true`
at that response, with that one request and no further attempt or sleep,
whatever the trace would hold afterwards. -/
theorem C3_json_success_returns_true (v : Bool) (t c status_code : Nat)
    (j : PyJson) (rest : List (Bool × ReqOutcome)) (hs : status_code ≠ 403)
    (hv : v = false ∨ ∃ fields ver, j = PyJson.obj fields ∧
      List.lookup "version_major" fields = some ver) :
    (galaxy_wait_loop v t c
        ((true, ReqOutcome.ok status_code (some j)) :: rest)).outcome = .ret true ∧
    (galaxy_wait_loop v t c
        ((true, ReqOutcome.ok status_code (some j)) :: rest)).attempts = 1 ∧
    (galaxy_wait_loop v t c
        ((true, ReqOutcome.ok status_code (some j)) :: rest)).sleeps = 0 := by
  have hsucc : ∃ out, loop_body v c (ReqOutcome.ok status_code (some j)) = .success out := by
    rcases hv with hv | ⟨fields, ver, hj, hl⟩
    · subst hv
      exact ⟨[], by simp [loop_body, hs]⟩
    · subst hj
      cases v with
      | false => exact ⟨[], by simp [loop_body, hs]⟩
      | true => exact ⟨["Galaxy Version: " ++ ver ++ "\n"], by simp [loop_body, hs, hl]⟩
  obtain ⟨out, hout⟩ := hsucc
  rw [gw_step_success v t c _ out rest hout]
  simp

/-- Concrete instance of the amended C3 theorem: a non-object JSON body on a
200 response, `verbose = false`. -/
theorem C3_witness :
    (galaxy_wait_loop false 9 4
        ((true, ReqOutcome.ok 200 (some PyJson.nonObj)) :: [])).outcome = .ret true ∧
    (galaxy_wait_loop false 9 4
        ((true, ReqOutcome.ok 200 (some PyJson.nonObj)) :: [])).attempts = 1 ∧
    (galaxy_wait_loop false 9 4
        ((true, ReqOutcome.ok 200 (some PyJson.nonObj)) :: [])).sleeps = 0 :=
  C3_json_success_returns_true false 9 4 200 PyJson.nonObj [] (by decide) (Or.inl rfl)

/-- Claim C4: with `timeoutSeconds = 0` the timeout branch is unreachable — no
run of `galaxy_wait` ever returns `false` — and over any (arbitrarily long)
trace of failed attempts (connection failures, 403s, non-JSON bodies) the call
either keeps polling or ends `true` via a successful response or cancellation;
on an all-failure trace the only ending is cancellation's `true`. -/
theorem C4_timeout_zero_never_false (v : Bool) (trace : List (Bool × ReqOutcome)) :
    (galaxy_wait v 0 trace).outcome ≠ .ret false ∧
    ((∀ p ∈ trace, isRetryOutcome p.2 = true) →
      (galaxy_wait v 0 trace).outcome = .pending ∨
      (galaxy_wait v 0 trace).outcome = .ret true) := by
  constructor
  · simpa only [galaxy_wait] using gw_timeout_zero_never_false v trace 0
  · intro hall
    simpa only [galaxy_wait] using gw_timeout_zero_all_retry v trace 0 hall

/-- Claim C5: an HTTP 403 response (whatever its body — even valid JSON) and a
connection failure are interchangeable: two runs whose traces agree on the
cancellation flags and whose request outcomes differ only by swapping 403
responses for connection failures (either way, at any set of iterations)
return the same value after the same number of attempts, with the same sleeps
and the same final counter. -/
theorem C5_403_equals_conn_failure (v : Bool) (t : Nat)
    (t1 t2 : List (Bool × ReqOutcome))
    (h : List.Forall₂ (fun p q => p.1 = q.1 ∧ similar403Conn p.2 q.2 = true) t1 t2) :
    (galaxy_wait v t t1).outcome = (galaxy_wait v t t2).outcome ∧
    (galaxy_wait v t t1).attempts = (galaxy_wait v t t2).attempts ∧
    (galaxy_wait v t t1).sleeps = (galaxy_wait v t t2).sleeps ∧
    (galaxy_wait v t t1).finalCount = (galaxy_wait v t t2).finalCount := by
  simpa only [galaxy_wait] using gw_similar_runs v t t1 t2 h 0

/-- Concrete instance of the C5 theorem: a 403 response with a valid JSON body
swapped for a connection failure at iteration 1, and a connection failure
swapped for a bodyless 403 at iteration 2, under `verbose = true` and
`timeout = 1`. -/
theorem C5_witness :
    (galaxy_wait true 1
        [(true, ReqOutcome.ok 403 (some (PyJson.obj [("version_major", "23.0")]))),
         (true, ReqOutcome.connError "refused")]).outcome
      = (galaxy_wait true 1
        [(true, ReqOutcome.connError "down"),
         (true, ReqOutcome.ok 403 none)]).outcome ∧
    (galaxy_wait true 1
        [(true, ReqOutcome.ok 403 (some (PyJson.obj [("version_major", "23.0")]))),
         (true, ReqOutcome.connError "refused")]).attempts
      = (galaxy_wait true 1
        [(true, ReqOutcome.connError "down"),
         (true, ReqOutcome.ok 403 none)]).attempts ∧
    (galaxy_wait true 1
        [(true, ReqOutcome.ok 403 (some (PyJson.obj [("version_major", "23.0")]))),
         (true, ReqOutcome.connError "refused")]).sleeps
      = (galaxy_wait true 1
        [(true, ReqOutcome.connError "down"),
         (true, ReqOutcome.ok 403 none)]).sleeps ∧
    (galaxy_wait true 1
        [(true, ReqOutcome.ok 403 (some (PyJson.obj [("version_major", "23.0")]))),
         (true, ReqOutcome.connError "refused")]).finalCount
      = (galaxy_wait true 1
        [(true, ReqOutcome.connError "down"),
         (true, ReqOutcome.ok 403 none)]).finalCount :=
  C5_403_equals_conn_failure true 1 _ _
    (List.Forall₂.cons ⟨rfl, by decide⟩
      (List.Forall₂.cons ⟨rfl, by decide⟩ List.Forall₂.nil))

/-- Claim C6: with `galaxy_wait`'s default parameters (`verbose = false`,
`timeout = 0`), a run of `k ≥ 0` connection failures followed by a
JSON-parseable non-403 response returns `true`, and the attempt counter at
return equals `k`, the number of failed attempts: the successful request (the
`k+1`-st attempt issued) does not increment it. -/
theorem C6_counter_equals_failed_attempts (k : Nat) (msg : String)
    (status_code : Nat) (j : PyJson) (hs : status_code ≠ 403)
    (rest : List (Bool × ReqOutcome)) :
    (galaxy_wait false 0 (List.replicate k (true, ReqOutcome.connError msg) ++
        (true, ReqOutcome.ok status_code (some j)) :: rest)).outcome = .ret true ∧
    (galaxy_wait false 0 (List.replicate k (true, ReqOutcome.connError msg) ++
        (true, ReqOutcome.ok status_code (some j)) :: rest)).finalCount = k ∧
    (galaxy_wait false 0 (List.replicate k (true, ReqOutcome.connError msg) ++
        (true, ReqOutcome.ok status_code (some j)) :: rest)).attempts = k + 1 := by
  have h := gw_conn_then_success msg status_code j hs rest k 0
  simp only [galaxy_wait, h]
  simp

/-- Concrete instance of the C6 theorem: three connection-refused attempts,
then a version payload (the spec's Scenario A shape). -/
theorem C6_witness :
    (galaxy_wait false 0 (List.replicate 3 (true, ReqOutcome.connError "refused") ++
        (true, ReqOutcome.ok 200
          (some (PyJson.obj [("version_major", "23.0")]))) :: [])).outcome = .ret true ∧
    (galaxy_wait false 0 (List.replicate 3 (true, ReqOutcome.connError "refused") ++
        (true, ReqOutcome.ok 200
          (some (PyJson.obj [("version_major", "23.0")]))) :: [])).finalCount = 3 ∧
    (galaxy_wait false 0 (List.replicate 3 (true, ReqOutcome.connError "refused") ++
        (true, ReqOutcome.ok 200
          (some (PyJson.obj [("version_major", "23.0")]))) :: [])).attempts = 3 + 1 :=
  C6_counter_equals_failed_attempts 3 "refused" 200
    (PyJson.obj [("version_major", "23.0")]) (by decide) []

/-- Claim C7: a provided (non-empty) `api_key` makes the polled URL exactly
`galaxy_url ++ "/api/version?" ++ api_key` — the key is appended literally as
the raw query string, with no URL-encoding applied to it. -/
theorem C7_api_key_appended_literally (galaxy_url api_key : String)
    (hk : api_key ≠ "") :
    version_url galaxy_url (some api_key)
      = galaxy_url ++ "/api/version?" ++ api_key := by
  simp [version_url, hk, String.append_assoc]

/-- Concrete instance of the C7 theorem, the spec's Scenario D:
`api_key = "key=abc"`. -/
theorem C7_witness :
    version_url "http://localhost:8080" (some "key=abc")
      = "http://localhost:8080" ++ "/api/version?" ++ "key=abc" :=
  C7_api_key_appended_literally "http://localhost:8080" "key=abc" (by decide)

/-- Claim C8: whenever `galaxy_wait` returns (so `main` reaches `sys.exit`),
the process exit code is `0` exactly when `galaxy_wait` returned `true` and
`1` exactly when it returned `false`. -/
theorem C8_exit_code_zero_iff_alive (v : Bool) (t : Nat)
    (trace : List (Bool × ReqOutcome)) (n : Nat)
    (h : main_run v t trace = some n) :
    (n = 0 ↔ (galaxy_wait v t trace).outcome = .ret true) ∧
    (n = 1 ↔ (galaxy_wait v t trace).outcome = .ret false) := by
  cases hoc : (galaxy_wait v t trace).outcome with
  | ret b =>
    rw [main_run, hoc] at h
    cases b with
    | false =>
      simp only [main_exit_code, if_false, Option.some.injEq, Bool.false_eq_true] at h
      subst h
      simp [hoc]
    | true =>
      simp only [main_exit_code, if_true, Option.some.injEq] at h
      subst h
      simp [hoc]
  | exn e =>
    rw [main_run, hoc] at h
    simp at h
  | pending =>
    rw [main_run, hoc] at h
    simp at h

/-- Concrete instance of the C8 theorem: a cancelled run returns `true` and
exits with code 0. -/
theorem C8_witness :
    (0 = 0 ↔ (galaxy_wait false 0 [(false, ReqOutcome.netOther)]).outcome
        = .ret true) ∧
    (0 = 1 ↔ (galaxy_wait false 0 [(false, ReqOutcome.netOther)]).outcome
        = .ret false) :=
  C8_exit_code_zero_iff_alive false 0 [(false, ReqOutcome.netOther)] 0 (by decide)

/-- Claim C9: a cleared sleep flag observed at the `while` check ends the loop
through the normal `return True` path, indistinguishable from success: from
any counter value the call returns `true` on the spot, and a `galaxy_wait`
whose `SleepCondition` is already cancelled returns `true` having issued zero
HTTP requests, slept zero times and written nothing. -/
theorem C9_cancellation_returns_true (v : Bool) (t c : Nat) (oc : ReqOutcome)
    (rest : List (Bool × ReqOutcome)) :
    galaxy_wait_loop v t c ((false, oc) :: rest)
      = { outcome := .ret true, finalCount := c, attempts := 0, sleeps := 0,
          stdout := [], stderr := [] } ∧
    galaxy_wait v t ((false, oc) :: rest)
      = { outcome := .ret true, finalCount := 0, attempts := 0, sleeps := 0,
          stdout := [], stderr := [] } :=
  ⟨gw_step_cancel v t c oc rest, gw_step_cancel v t 0 oc rest⟩

/-- Claim C10: with `verbose = false`, `galaxy_wait` writes nothing to
standard output and never reads `version_major`: no run ends in the
`KeyError`/`TypeError` of that read, and a JSON-parseable non-403 response of
any shape (object or not, `version_major` or not) returns `true`. -/
theorem C10_nonverbose_writes_nothing (t c status_code : Nat) (j : PyJson)
    (trace rest : List (Bool × ReqOutcome)) (hs : status_code ≠ 403) :
    (galaxy_wait_loop false t c trace).stdout = [] ∧
    (galaxy_wait_loop false t c trace).outcome ≠ .exn .keyError ∧
    (galaxy_wait_loop false t c trace).outcome ≠ .exn .typeError ∧
    (galaxy_wait_loop false t c
        ((true, ReqOutcome.ok status_code (some j)) :: rest)).outcome = .ret true := by
  obtain ⟨hq, hexn⟩ := gw_nonverbose_quiet t trace c
  refine ⟨hq, ?_, ?_, ?_⟩
  · intro h
    exact absurd (hexn _ h) (by decide)
  · intro h
    exact absurd (hexn _ h) (by decide)
  · rw [gw_step_success false t c _ [] rest (by simp [loop_body, hs])]

/-- Concrete instance of the C10 theorem: one non-object JSON success under
`verbose = false`. -/
theorem C10_witness :
    (galaxy_wait_loop false 0 0
        [(true, ReqOutcome.ok 200 (some PyJson.nonObj))]).stdout = [] ∧
    (galaxy_wait_loop false 0 0
        [(true, ReqOutcome.ok 200 (some PyJson.nonObj))]).outcome ≠ .exn .keyError ∧
    (galaxy_wait_loop false 0 0
        [(true, ReqOutcome.ok 200 (some PyJson.nonObj))]).outcome ≠ .exn .typeError ∧
    (galaxy_wait_loop false 0 0
        ((true, ReqOutcome.ok 200 (some PyJson.nonObj)) :: [])).outcome = .ret true :=
  C10_nonverbose_writes_nothing 0 0 200 PyJson.nonObj
    [(true, ReqOutcome.ok 200 (some PyJson.nonObj))] [] (by decide)
